import Mathlib

/-!
Verification of the Capture-Store-Sync Engine of the location-tracker
repository, as a shallow embedding of its two concrete implementations:

* the Capacitor web app (src/src/App.jsx, first document: StorageManager,
  captureLocation, the tracking useEffect; second document: the
  queue-based track/handleSync pair), and
* the Android foreground service
  (src/android/.../LocationTrackerService.java: saveToLocalStorage,
  limitJsonArray, postToSheets, start7HourCheck).

JavaScript numbers (coordinates) are modelled as rationals; timestamps
(Date.now, System.currentTimeMillis) as naturals counting milliseconds;
localStorage / SharedPreferences slots as explicit state threaded through
the step functions.  Fallible environment effects (geolocation fetch,
HTTP response, storage write durability) are inputs to each step.
-/

namespace LocationTracker

/-- A history entry as built by captureLocation in App.jsx:
id is the capture's Date.now() value, coordinates are degrees, accuracy is
Math.round of the reported accuracy, timestamp is the formatted IST display
string (opaque here). -/
structure Entry where
  id : Nat
  latitude : Rat
  longitude : Rat
  accuracy : Int
  timestamp : String
  deriving DecidableEq, Repr

/-- A raw geolocation fix as delivered by Geolocation.getCurrentPosition. -/
structure GeoPos where
  latitude : Rat
  longitude : Rat
  accuracy : Rat
  deriving DecidableEq, Repr

/-- The duplicate test of captureLocation (App.jsx lines 301-307): an
existing item is a duplicate witness when its id equals the candidate's id,
or both coordinates agree within 0.000001 degrees and the ids (millisecond
timestamps) differ by less than 30000 ms. -/
def isDuplicate (prev : List Entry) (e : Entry) : Bool :=
  prev.any fun item =>
    item.id == e.id ||
      (decide (|item.latitude - e.latitude| < 1/1000000) &&
       decide (|item.longitude - e.longitude| < 1/1000000) &&
       decide (((item.id : Int) - (e.id : Int)).natAbs < 30000))

/-- The duplicate test as claim C4 words it (for comparison with the
source's isDuplicate): coordinate epsilon 1e-5 degrees and a 30-second
time window. -/
def claimIsDuplicate (prev : List Entry) (e : Entry) : Bool :=
  prev.any fun item =>
    item.id == e.id ||
      (decide (|item.latitude - e.latitude| < 1/100000) &&
       decide (|item.longitude - e.longitude| < 1/100000) &&
       decide (((item.id : Int) - (e.id : Int)).natAbs < 30000))

/-- The two localStorage slots used by StorageManager:
location_history (primary) and location_history_backup.  Slots hold the
deserialized array; none models an absent key. -/
structure Storage where
  primarySlot : Option (List Entry)
  backupSlot : Option (List Entry)
  deriving DecidableEq, Repr

/-- Durability oracle for one saveHistory call: whether each setItem call
durably stored its value (a failed write leaves the slot's previous
content, which is what the read-back verification then sees). -/
structure WriteEnv where
  primaryOk : Bool
  backupOk : Bool
  deriving DecidableEq, Repr

/-- StorageManager.saveHistory (App.jsx lines 114-137): writes the
serialized log to the primary and backup slots, then re-reads the primary
slot and reports success iff the read-back equals the written data
(string equality on the JSON; list equality here, serialization being
injective). -/
def saveHistory (data : List Entry) (st : Storage) (env : WriteEnv) :
    Storage × Bool :=
  let st1 : Storage :=
    { primarySlot := if env.primaryOk then some data else st.primarySlot
      backupSlot := if env.backupOk then some data else st.backupSlot }
  (st1, st1.primarySlot == some data)

/-- What a localStorage history slot can hold from loadHistory's point of
view: absent key, the empty string (falsy, so skipped like an absent key),
present-but-unparseable text (JSON.parse throws), or a parseable history
array. -/
inductive Slot where
  | absent
  | emptyStr
  | corrupt
  | valid (data : List Entry)
  deriving DecidableEq, Repr

/-- JavaScript truthiness of a getItem result: null and the empty string
are falsy, any other string is truthy. -/
def Slot.truthy : Slot → Bool
  | .absent => false
  | .emptyStr => false
  | _ => true

/-- JSON.parse outcome on a slot's content: some data on a well-formed
history array, none when parsing throws. -/
def Slot.parse : Slot → Option (List Entry)
  | .valid data => some data
  | _ => none

/-- StorageManager.loadHistory (App.jsx lines 139-161): read the primary
slot; when truthy, parse it (a parse exception lands in the catch block
which returns the empty array — the backup is not consulted).  When the
primary is falsy, read and parse the backup the same way.  When both are
falsy, return the empty array. -/
def loadHistory (primary backup : Slot) : List Entry :=
  if primary.truthy then
    match primary.parse with
    | some data => data
    | none => []
  else if backup.truthy then
    match backup.parse with
    | some data => data
    | none => []
  else []

/-- The mutable state captureLocation reads and writes: the trackingLock
ref, the lastCaptureTime ref, the history React state, the two storage
slots, the currentLocation display state and the gpsEnabled flag. -/
structure AppState where
  trackingLock : Bool
  lastCaptureTime : Nat
  history : List Entry
  storage : Storage
  currentLocation : Option Entry
  gpsEnabled : Bool
  deriving DecidableEq, Repr

/-- Outcome of Geolocation.getCurrentPosition: a fix, or an exception
whose message may or may not contain the substrings the catch block tests
for (these mark permission / location-service errors). -/
inductive FetchResult where
  | ok (pos : GeoPos)
  | err (mentionsLocationOrDenied : Bool)
  deriving DecidableEq, Repr

/-- How one captureLocation invocation ended, mirroring the code paths:
the two early-return guards, the catch block, the duplicate branch of the
setHistory updater, and the accepted-capture branch. -/
inductive CapOutcome where
  | droppedLock
  | droppedGap
  | fetchFailed
  | dupRejected
  | captured
  deriving DecidableEq, Repr

/-- The newEntry object built after a successful fix (App.jsx lines
274-288): id is the trigger's Date.now() value, accuracy is Math.round of
the fix's accuracy (round half up, as JavaScript does), tsStr the
formatted IST time string produced by toLocaleString. -/
def mkEntry (now : Nat) (pos : GeoPos) (tsStr : String) : Entry :=
  { id := now
    latitude := pos.latitude
    longitude := pos.longitude
    accuracy := round pos.accuracy
    timestamp := tsStr }

/-- The try/catch/finally body of captureLocation, entered with the
trackingLock held; every exit path runs the finally block clearing the
lock.  On a fix: currentLocation and lastCaptureTime are set, then the
setHistory updater either rejects a duplicate or prepends the entry,
truncates to 50 and persists via saveHistory (whose boolean result is only
logged).  On an exception: gpsEnabled is cleared when the message mentions
location/denied. -/
def captureBody (s : AppState) (now : Nat) (fetch : FetchResult)
    (tsStr : String) (env : WriteEnv) : AppState × CapOutcome :=
  match fetch with
  | .err locDenied =>
      ({ s with
          gpsEnabled := if locDenied then false else s.gpsEnabled
          trackingLock := false },
        .fetchFailed)
  | .ok pos =>
      let newEntry := mkEntry now pos tsStr
      let s1 := { s with
        currentLocation := some newEntry
        lastCaptureTime := now }
      if isDuplicate s1.history newEntry then
        ({ s1 with trackingLock := false }, .dupRejected)
      else
        let updated := (newEntry :: s1.history).take 50
        let saved := saveHistory updated s1.storage env
        ({ s1 with
            history := updated
            storage := saved.1
            trackingLock := false },
          .captured)

/-- captureLocation (App.jsx lines 249-338): drop the trigger when the
lock is held; drop it when less than 10000 ms have passed since the last
successful capture and lastCaptureTime is nonzero; otherwise take the lock
and run the body. -/
def captureLocation (s : AppState) (now : Nat) (fetch : FetchResult)
    (tsStr : String) (env : WriteEnv) : AppState × CapOutcome :=
  if s.trackingLock then (s, .droppedLock)
  else if now - s.lastCaptureTime < 10000 ∧ s.lastCaptureTime ≠ 0 then
    (s, .droppedGap)
  else captureBody { s with trackingLock := true } now fetch tsStr env

/-- A whole sequence of capture triggers, each with its trigger time,
fetch outcome, formatted time string and storage-write oracle. -/
def runCaptures (s : AppState) :
    List (Nat × FetchResult × String × WriteEnv) → AppState
  | [] => s
  | (now, fetch, tsStr, env) :: rest =>
      runCaptures (captureLocation s now fetch tsStr env).1 rest

/-- Every present storage slot holds at most 50 entries. -/
def storageBounded (st : Storage) : Prop :=
  (∀ l, st.primarySlot = some l → l.length ≤ 50) ∧
  (∀ l, st.backupSlot = some l → l.length ≤ 50)

/-- A captured point of the queue-based App.jsx variant (the track
callback feeding both offline_queue and loc_history). -/
structure QPoint where
  lat : Rat
  lng : Rat
  acc : Rat
  time : String
  displayTime : String
  deriving DecidableEq, Repr

/-- The geolocation success callback of the queue-based variant (App.jsx
lines 1084-1110): the point is appended to the offline queue and pushed at
the head of the 50-bounded history, both persisted; delivery is attempted
only later, by handleSync, from the queue. -/
def trackCapture (queue history : List QPoint) (p : QPoint) :
    List QPoint × List QPoint :=
  (queue ++ [p], (p :: history).take 50)

/-- handleSync (App.jsx lines 1135-1149): bail out on an empty queue, no
connectivity or no database handle; otherwise post every queued item and
await all of them — only when every delivery succeeded is the queue
cleared (state and persisted copy); any failure lands in the catch block
and leaves the queue untouched. -/
def handleSync (queue : List QPoint) (isOnline dbOk : Bool)
    (deliver : QPoint → Bool) : List QPoint :=
  if queue.isEmpty then queue
  else if !isOnline then queue
  else if !dbOk then queue
  else if queue.all deliver then [] else queue

/-- The sync-relevant persisted state of the Android service
(TrackeractPrefs): the last_upload_time key, absent until the first
successful post.  The service keeps no queue of undelivered points — its
only other persisted data is the bounded display history. -/
structure SyncPrefs where
  lastUploadTime : Option Nat
  deriving DecidableEq, Repr

/-- Outcome of the HTTP POST in postToSheets: a response code, or an
exception (network error / timeout) before a code was obtained. -/
inductive PostResult where
  | status (code : Int)
  | netError
  deriving DecidableEq, Repr

/-- The success test of postToSheets (LocationTrackerService.java line
246): responseCode == 200 || responseCode == 302; an exception is never a
success. -/
def postSuccess : PostResult → Bool
  | .status code => code == 200 || code == 302
  | .netError => false

/-- postToSheets (LocationTrackerService.java lines 205-259): skip when
no Sheets URL is configured; otherwise POST the point and, on a 200/302
response, store last_upload_time := now.  On any other code or an
exception the prefs are untouched and the point is not recorded anywhere
for retry.  Returns the new prefs and whether delivery was confirmed. -/
def postToSheets (prefs : SyncPrefs) (sheetsUrlEmpty : Bool)
    (result : PostResult) (now : Nat) : SyncPrefs × Bool :=
  if sheetsUrlEmpty then (prefs, false)
  else if postSuccess result then ({ lastUploadTime := some now }, true)
  else (prefs, false)

/-- Milliseconds per hour, the divisor in start7HourCheck. -/
def msPerHour : Nat := 1000 * 60 * 60

/-- One tick of start7HourCheck (LocationTrackerService.java lines
283-298): lastUpload := getLong("last_upload_time", default), where the
default is System.currentTimeMillis() evaluated at the tick; then the
alert condition is (now - lastUpload) / msPerHour >= 7 in integer
arithmetic.  The tick only logs; it performs no capture or delivery. -/
def watchdogTick (stored : Option Nat) (now : Nat) : Bool :=
  let lastUpload := stored.getD now
  decide (7 ≤ (now - lastUpload) / msPerHour)

/-- The staleness test as claim C8 words it (for comparison with the
source's watchdogTick): alert iff now minus lastSuccessfulUploadAt exceeds
7 hours, with lastSuccessfulUploadAt defaulting to the process start time
when no upload has ever succeeded. -/
def watchdogTickSpec (stored : Option Nat) (processStart now : Nat) : Bool :=
  decide (7 * msPerHour < now - stored.getD processStart)

/-- The mount-time resume decision (App.jsx lines 199-203): tracking is
resumed iff the persisted was_tracking string is exactly "true". -/
def resumeWasTracking (stored : Option String) : Bool :=
  stored == some "true"

/-- The tracking useEffect (App.jsx lines 341-378) as a function of the
isTracking flag and the persisted interval (minutes): when tracking it
persists was_tracking := "true" and starts the capture timer with the
stored cadence (default 5 min); when not tracking it persists "false" and
starts no timer.  Returns (timer period in ms if started, persisted
was_tracking value). -/
def trackingEffect (isTracking : Bool) (storedIntervalMin : Option Nat) :
    Option Nat × String :=
  if isTracking then
    let m := storedIntervalMin.getD 5
    (some (m * 60 * 1000), "true")
  else (none, "false")

/-- limitJsonArray's scanning loop (LocationTrackerService.java lines
385-407): walk the characters of the serialized history, tracking brace
depth; each closing brace that returns the depth to zero completes one
top-level object; once maxSize objects are complete, return the prefix up
to that brace with a closing bracket appended.  Returns none when the
whole string is scanned without reaching maxSize (the Java method then
returns its input unchanged).  The acc argument carries the scanned prefix
in reverse. -/
def limitScan (maxSize : Nat) :
    List Char → Int → Nat → List Char → Option (List Char)
  | [], _, _, _ => none
  | c :: rest, depth, count, acc =>
    if c = '{' then limitScan maxSize rest (depth + 1) count (c :: acc)
    else if c = '}' then
      if depth - 1 = 0 then
        if count + 1 ≥ maxSize then some ((c :: acc).reverse ++ [']'])
        else limitScan maxSize rest (depth - 1) (count + 1) (c :: acc)
      else limitScan maxSize rest (depth - 1) count (c :: acc)
    else limitScan maxSize rest depth count (c :: acc)

/-- limitJsonArray (LocationTrackerService.java lines 385-407) on the
character list of the stored JSON string. -/
def limitJsonArray (s : List Char) (maxSize : Nat) : List Char :=
  match limitScan maxSize s 0 0 [] with
  | some r => r
  | none => s

/-- Number of top-level JSON objects in a character list, counted the same
way limitJsonArray does: closing braces that bring the brace depth back to
zero. -/
def countTopLevel : List Char → Int → Nat
  | [], _ => 0
  | c :: rest, depth =>
    if c = '{' then countTopLevel rest (depth + 1)
    else if c = '}' then
      (if depth - 1 = 0 then 1 else 0) + countTopLevel rest (depth - 1)
    else countTopLevel rest depth

/-- Brace depth after scanning a character list, starting from depth d. -/
def depthAfter : List Char → Int → Int
  | [], d => d
  | c :: rest, d =>
    if c = '{' then depthAfter rest (d + 1)
    else if c = '}' then depthAfter rest (d - 1)
    else depthAfter rest d

theorem depthAfter_append (xs ys : List Char) (d : Int) :
    depthAfter (xs ++ ys) d = depthAfter ys (depthAfter xs d) := by
  induction xs generalizing d with
  | nil => rfl
  | cons c rest ih =>
    simp only [List.cons_append, depthAfter]
    split_ifs
    · apply ih
    · apply ih
    · apply ih

theorem countTopLevel_append (xs ys : List Char) (d : Int) :
    countTopLevel (xs ++ ys) d =
      countTopLevel xs d + countTopLevel ys (depthAfter xs d) := by
  induction xs generalizing d with
  | nil => simp [countTopLevel, depthAfter]
  | cons c rest ih =>
    simp only [List.cons_append, countTopLevel, depthAfter]
    split_ifs <;> (simp [ih]; try omega)

theorem limitScan_some_count (maxSize : Nat)
    (rest : List Char) (depth : Int) (count : Nat) (acc : List Char)
    (r : List Char)
    (hcount : count < maxSize)
    (hc : countTopLevel acc.reverse 0 = count)
    (hd : depthAfter acc.reverse 0 = depth)
    (h : limitScan maxSize rest depth count acc = some r) :
    countTopLevel r 0 = maxSize := by
  induction rest generalizing depth count acc with
  | nil => simp [limitScan] at h
  | cons c rest ih =>
    simp only [limitScan] at h
    by_cases hbrace : c = '{'
    · rw [if_pos hbrace] at h
      refine ih (depth + 1) count (c :: acc) hcount ?_ ?_ h
      · simp [countTopLevel_append, hc, hd, countTopLevel, hbrace]
      · simp [depthAfter_append, hd, depthAfter, hbrace]
    · rw [if_neg hbrace] at h
      by_cases hclose : c = '}'
      · rw [if_pos hclose] at h
        by_cases hzero : depth - 1 = 0
        · rw [if_pos hzero] at h
          by_cases hmax : count + 1 ≥ maxSize
          · rw [if_pos hmax] at h
            injection h with h
            subst h
            have : countTopLevel ((c :: acc).reverse ++ [']']) 0 =
                count + 1 := by
              simp [countTopLevel_append, hc, hd, countTopLevel,
                depthAfter, hclose, hbrace, hzero]
            rw [this]
            omega
          · rw [if_neg hmax] at h
            refine ih (depth - 1) (count + 1) (c :: acc) (by omega) ?_ ?_ h
            · simp [countTopLevel_append, hc, hd, countTopLevel,
                hclose, hbrace, hzero]
            · simp [depthAfter_append, hd, depthAfter, hclose, hbrace]
        · rw [if_neg hzero] at h
          refine ih (depth - 1) count (c :: acc) hcount ?_ ?_ h
          · simp [countTopLevel_append, hc, hd, countTopLevel,
              hclose, hbrace, hzero]
          · simp [depthAfter_append, hd, depthAfter, hclose, hbrace]
      · rw [if_neg hclose] at h
        refine ih depth count (c :: acc) hcount ?_ ?_ h
        · simp [countTopLevel_append, hc, hd, countTopLevel, hclose, hbrace]
        · simp [depthAfter_append, hd, depthAfter, hclose, hbrace]

theorem limitScan_none_count (maxSize : Nat)
    (rest : List Char) (depth : Int) (count : Nat) (acc : List Char)
    (hcount : count < maxSize)
    (hc : countTopLevel acc.reverse 0 = count)
    (hd : depthAfter acc.reverse 0 = depth)
    (h : limitScan maxSize rest depth count acc = none) :
    countTopLevel (acc.reverse ++ rest) 0 < maxSize := by
  induction rest generalizing depth count acc with
  | nil => simpa [countTopLevel_append, hc, countTopLevel] using hcount
  | cons c rest ih =>
    simp only [limitScan] at h
    by_cases hbrace : c = '{'
    · rw [if_pos hbrace] at h
      have := ih (depth + 1) count (c :: acc) hcount
        (by simp [countTopLevel_append, hc, hd, countTopLevel, hbrace])
        (by simp [depthAfter_append, hd, depthAfter, hbrace]) h
      simpa [countTopLevel_append, countTopLevel, depthAfter_append,
        depthAfter] using this
    · rw [if_neg hbrace] at h
      by_cases hclose : c = '}'
      · rw [if_pos hclose] at h
        by_cases hzero : depth - 1 = 0
        · rw [if_pos hzero] at h
          by_cases hmax : count + 1 ≥ maxSize
          · rw [if_pos hmax] at h
            exact absurd h (by simp)
          · rw [if_neg hmax] at h
            have := ih (depth - 1) (count + 1) (c :: acc) (by omega)
              (by simp [countTopLevel_append, hc, hd, countTopLevel,
                hclose, hbrace, hzero])
              (by simp [depthAfter_append, hd, depthAfter, hclose, hbrace])
              h
            simpa [countTopLevel_append, countTopLevel, depthAfter_append,
              depthAfter] using this
        · rw [if_neg hzero] at h
          have := ih (depth - 1) count (c :: acc) hcount
            (by simp [countTopLevel_append, hc, hd, countTopLevel,
              hclose, hbrace, hzero])
            (by simp [depthAfter_append, hd, depthAfter, hclose, hbrace])
            h
          simpa [countTopLevel_append, countTopLevel, depthAfter_append,
            depthAfter] using this
      · rw [if_neg hclose] at h
        have := ih depth count (c :: acc) hcount
          (by simp [countTopLevel_append, hc, hd, countTopLevel,
            hclose, hbrace])
          (by simp [depthAfter_append, hd, depthAfter, hclose, hbrace])
          h
        simpa [countTopLevel_append, countTopLevel, depthAfter_append,
          depthAfter] using this

theorem limitJsonArray_bound (s : List Char) :
    countTopLevel (limitJsonArray s 50) 0 ≤ 50 := by
  unfold limitJsonArray
  cases h : limitScan 50 s 0 0 [] with
  | some r =>
    have := limitScan_some_count 50 s 0 0 [] r (by omega) rfl rfl h
    show countTopLevel r 0 ≤ 50
    omega
  | none =>
    have := limitScan_none_count 50 s 0 0 [] (by omega) rfl rfl h
    simp only [List.reverse_nil, List.nil_append] at this
    show countTopLevel s 0 ≤ 50
    omega

theorem captureBody_lock_free (s : AppState) (now : Nat)
    (fetch : FetchResult) (tsStr : String) (env : WriteEnv) :
    (captureBody s now fetch tsStr env).1.trackingLock = false := by
  cases fetch with
  | err b => rfl
  | ok pos =>
    simp only [captureBody]
    split
    · rfl
    · rfl

theorem captureLocation_lock_eq (s : AppState) (now : Nat)
    (fetch : FetchResult) (tsStr : String) (env : WriteEnv) :
    (captureLocation s now fetch tsStr env).1.trackingLock =
      s.trackingLock := by
  unfold captureLocation
  split_ifs with h1 h2
  · rfl
  · rfl
  · rw [captureBody_lock_free]
    cases hb : s.trackingLock
    · rfl
    · exact absurd hb h1

theorem captureLocation_captured_state (s : AppState) (now : Nat)
    (fetch : FetchResult) (tsStr : String) (env : WriteEnv)
    (h : (captureLocation s now fetch tsStr env).2 = .captured) :
    (captureLocation s now fetch tsStr env).1.lastCaptureTime = now ∧
    (captureLocation s now fetch tsStr env).1.trackingLock = false := by
  unfold captureLocation at h ⊢
  split_ifs at h ⊢
  cases fetch with
  | err b => simp [captureBody] at h
  | ok pos =>
    by_cases hd :
      isDuplicate s.history (mkEntry now pos tsStr) = true
    · simp [captureBody, hd] at h
    · simp only [Bool.not_eq_true] at hd
      simp [captureBody, hd]

/-- Claim C10: every invocation of the capture operation releases the
single-flight lock by the time it completes — the try/catch/finally body
clears the lock on every path (successful fix, duplicate rejection, fetch
exception), and a whole captureLocation call never leaves the lock in a
different state than it found it, so a failed capture cannot permanently
block subsequent triggers. -/
theorem C10_lock_always_released :
    (∀ (s : AppState) (now : Nat) (fetch : FetchResult) (tsStr : String)
      (env : WriteEnv),
      (captureBody s now fetch tsStr env).1.trackingLock = false) ∧
    (∀ (s : AppState) (now : Nat) (fetch : FetchResult) (tsStr : String)
      (env : WriteEnv),
      (captureLocation s now fetch tsStr env).1.trackingLock =
        s.trackingLock) := by
  constructor
  · intro s now fetch tsStr env
    exact captureBody_lock_free s now fetch tsStr env
  · intro s now fetch tsStr env
    exact captureLocation_lock_eq s now fetch tsStr env

/-- Claim C3: a capture trigger is accepted only when no capture is in
flight and the 10-second quiescent window has elapsed since the last
successful capture; a trigger arriving while the lock is held, or too soon,
is dropped with the state (history included) unchanged; and of two triggers
firing 2 seconds apart at most one can produce a captured point. -/
theorem C3_trigger_guards :
    (∀ (s : AppState) (now : Nat) (fetch : FetchResult) (tsStr : String)
      (env : WriteEnv), s.trackingLock = true →
      captureLocation s now fetch tsStr env = (s, .droppedLock)) ∧
    (∀ (s : AppState) (now : Nat) (fetch : FetchResult) (tsStr : String)
      (env : WriteEnv), s.trackingLock = false →
      now - s.lastCaptureTime < 10000 → s.lastCaptureTime ≠ 0 →
      captureLocation s now fetch tsStr env = (s, .droppedGap)) ∧
    (∀ (s : AppState) (t1 : Nat) (f1 : FetchResult) (ts1 : String)
      (env1 : WriteEnv) (f2 : FetchResult) (ts2 : String) (env2 : WriteEnv),
      0 < t1 →
      ¬((captureLocation s t1 f1 ts1 env1).2 = .captured ∧
        (captureLocation (captureLocation s t1 f1 ts1 env1).1
          (t1 + 2000) f2 ts2 env2).2 = .captured)) := by
  refine ⟨?_, ?_, ?_⟩
  · intro s now fetch tsStr env h
    simp [captureLocation, h]
  · intro s now fetch tsStr env h1 h2 h3
    simp [captureLocation, h1, h2, h3]
  · intro s t1 f1 ts1 env1 f2 ts2 env2 ht
    rintro ⟨hc1, hc2⟩
    obtain ⟨hlast, hlock⟩ :=
      captureLocation_captured_state s t1 f1 ts1 env1 hc1
    have hne : t1 ≠ 0 := Nat.pos_iff_ne_zero.mp ht
    set X := (captureLocation s t1 f1 ts1 env1).1 with hX
    simp [captureLocation, hlock, hlast, hne] at hc2

/-- saveHistory keeps every present storage slot bounded by 50 entries
when the written data is bounded and the previous slot contents were. -/
theorem saveHistory_bounded (data : List Entry) (st : Storage)
    (env : WriteEnv) (hd : data.length ≤ 50) (hs : storageBounded st) :
    storageBounded (saveHistory data st env).1 := by
  constructor
  · intro l hl
    simp only [saveHistory] at hl
    split at hl
    · cases hl
      exact hd
    · exact hs.1 l hl
  · intro l hl
    simp only [saveHistory] at hl
    split at hl
    · cases hl
      exact hd
    · exact hs.2 l hl

/-- One captureLocation step keeps the in-memory history and both storage
slots bounded by 50 entries. -/
theorem captureLocation_bounded (s : AppState) (now : Nat)
    (fetch : FetchResult) (tsStr : String) (env : WriteEnv)
    (hh : s.history.length ≤ 50) (hs : storageBounded s.storage) :
    (captureLocation s now fetch tsStr env).1.history.length ≤ 50 ∧
    storageBounded (captureLocation s now fetch tsStr env).1.storage := by
  unfold captureLocation
  split_ifs
  · exact ⟨hh, hs⟩
  · exact ⟨hh, hs⟩
  · cases fetch with
    | err b => exact ⟨hh, hs⟩
    | ok pos =>
      simp only [captureBody]
      split
      · exact ⟨hh, hs⟩
      · refine ⟨?_, ?_⟩
        · simp [List.length_take]
        · exact saveHistory_bounded _ _ _ (by simp [List.length_take]) hs

/-- Any sequence of captures keeps history and storage bounded. -/
theorem runCaptures_bounded
    (steps : List (Nat × FetchResult × String × WriteEnv)) (s : AppState)
    (hh : s.history.length ≤ 50) (hs : storageBounded s.storage) :
    (runCaptures s steps).history.length ≤ 50 ∧
    storageBounded (runCaptures s steps).storage := by
  induction steps generalizing s with
  | nil => exact ⟨hh, hs⟩
  | cons step rest ih =>
    obtain ⟨now, fetch, tsStr, env⟩ := step
    have := captureLocation_bounded s now fetch tsStr env hh hs
    exact ih (captureLocation s now fetch tsStr env).1 this.1 this.2

/-- Claim C2: under any sequence of capture triggers the in-memory history
and both persisted history slots of the web app never exceed the 50-entry
capacity, and the Android service's limitJsonArray truncates the persisted
JSON history to at most 50 top-level objects. -/
theorem C2_history_capacity :
    (∀ (s : AppState)
      (steps : List (Nat × FetchResult × String × WriteEnv)),
      s.history.length ≤ 50 → storageBounded s.storage →
      (runCaptures s steps).history.length ≤ 50 ∧
      storageBounded (runCaptures s steps).storage) ∧
    (∀ chars : List Char, countTopLevel (limitJsonArray chars 50) 0 ≤ 50) := by
  constructor
  · intro s steps hh hs
    exact runCaptures_bounded steps s hh hs
  · intro chars
    exact limitJsonArray_bound chars

/-- Witness for C2 at a concrete state, step list and character string. -/
theorem C2_history_capacity_witness :
    ((runCaptures ⟨false, 0, [], ⟨none, none⟩, none, true⟩
        [(1, .ok ⟨0, 0, 0⟩, "", ⟨true, true⟩)]).history.length ≤ 50 ∧
      storageBounded (runCaptures ⟨false, 0, [], ⟨none, none⟩, none, true⟩
        [(1, .ok ⟨0, 0, 0⟩, "", ⟨true, true⟩)]).storage) ∧
    countTopLevel (limitJsonArray ("[{},{}]".toList) 50) 0 ≤ 50 :=
  ⟨C2_history_capacity.1 ⟨false, 0, [], ⟨none, none⟩, none, true⟩
      [(1, .ok ⟨0, 0, 0⟩, "", ⟨true, true⟩)] (by simp)
      (by constructor <;> intro l hl <;> simp at hl),
    C2_history_capacity.2 ("[{},{}]".toList)⟩

/-- Witness for C3: a locked state drops the trigger, a trigger 1000 ms
after the previous capture drops, and two triggers 2000 ms apart cannot
both capture. -/
theorem C3_trigger_guards_witness :
    captureLocation ⟨true, 0, [], ⟨none, none⟩, none, true⟩ 1
        (.err false) "" ⟨true, true⟩ =
      (⟨true, 0, [], ⟨none, none⟩, none, true⟩, .droppedLock) ∧
    captureLocation ⟨false, 5000, [], ⟨none, none⟩, none, true⟩ 6000
        (.err false) "" ⟨true, true⟩ =
      (⟨false, 5000, [], ⟨none, none⟩, none, true⟩, .droppedGap) ∧
    ¬((captureLocation ⟨false, 0, [], ⟨none, none⟩, none, true⟩ 12345
          (.ok ⟨0, 0, 0⟩) "" ⟨true, true⟩).2 = .captured ∧
      (captureLocation
          (captureLocation ⟨false, 0, [], ⟨none, none⟩, none, true⟩ 12345
            (.ok ⟨0, 0, 0⟩) "" ⟨true, true⟩).1
          (12345 + 2000) (.ok ⟨0, 0, 0⟩) "" ⟨true, true⟩).2 = .captured) :=
  ⟨C3_trigger_guards.1 ⟨true, 0, [], ⟨none, none⟩, none, true⟩ 1
      (.err false) "" ⟨true, true⟩ rfl,
    C3_trigger_guards.2.1 ⟨false, 5000, [], ⟨none, none⟩, none, true⟩ 6000
      (.err false) "" ⟨true, true⟩ rfl (by decide) (by decide),
    C3_trigger_guards.2.2 ⟨false, 0, [], ⟨none, none⟩, none, true⟩ 12345
      (.ok ⟨0, 0, 0⟩) "" ⟨true, true⟩ (.ok ⟨0, 0, 0⟩) "" ⟨true, true⟩
      (by decide)⟩

/-- Claim C6: an accepted capture is inserted at the head of the history
(evicting the tail when the log is at capacity), the whole updated log is
persisted to the primary and the backup slot (whenever the respective
write is durable), and the write is verified by re-reading the primary
slot; a verification mismatch does not roll back the in-memory log and
does not abort the capture — the step still ends in the captured outcome
with the updated history, for every write environment. -/
theorem C6_append_persist_verify :
    ∀ (s : AppState) (now : Nat) (pos : GeoPos) (tsStr : String)
      (env : WriteEnv),
      s.trackingLock = false →
      ¬(now - s.lastCaptureTime < 10000 ∧ s.lastCaptureTime ≠ 0) →
      isDuplicate s.history (mkEntry now pos tsStr) = false →
      (captureLocation s now (.ok pos) tsStr env).2 = .captured ∧
      (captureLocation s now (.ok pos) tsStr env).1.history =
        (mkEntry now pos tsStr :: s.history).take 50 ∧
      (s.history.length = 50 →
        (captureLocation s now (.ok pos) tsStr env).1.history =
          mkEntry now pos tsStr :: s.history.dropLast) ∧
      (env.primaryOk = true →
        (captureLocation s now (.ok pos) tsStr env).1.storage.primarySlot =
          some ((mkEntry now pos tsStr :: s.history).take 50)) ∧
      (env.backupOk = true →
        (captureLocation s now (.ok pos) tsStr env).1.storage.backupSlot =
          some ((mkEntry now pos tsStr :: s.history).take 50)) ∧
      ((saveHistory ((mkEntry now pos tsStr :: s.history).take 50)
          s.storage env).2 = false →
        (captureLocation s now (.ok pos) tsStr env).1.history =
          (mkEntry now pos tsStr :: s.history).take 50 ∧
        (captureLocation s now (.ok pos) tsStr env).2 = .captured) := by
  intro s now pos tsStr env h1 h2 h3
  have hstep :
      captureLocation s now (.ok pos) tsStr env =
        ({ s with
            currentLocation := some (mkEntry now pos tsStr)
            lastCaptureTime := now
            history := (mkEntry now pos tsStr :: s.history).take 50
            storage := (saveHistory
              ((mkEntry now pos tsStr :: s.history).take 50)
              s.storage env).1
            trackingLock := false },
          .captured) := by
    simp [captureLocation, captureBody, h1, h2, h3, saveHistory]
  refine ⟨by rw [hstep], by rw [hstep], ?_, ?_, ?_, ?_⟩
  · intro h50
    rw [hstep]
    show (mkEntry now pos tsStr :: s.history).take 50 = _
    rw [List.dropLast_eq_take, h50]
    rw [show (50 : Nat) = 49 + 1 from rfl, List.take_succ_cons]
  · intro hp
    rw [hstep]
    show (saveHistory _ s.storage env).1.primarySlot = _
    simp [saveHistory, hp]
  · intro hb
    rw [hstep]
    show (saveHistory _ s.storage env).1.backupSlot = _
    simp [saveHistory, hb]
  · intro _
    exact ⟨by rw [hstep], by rw [hstep]⟩

/-- Witness for C6: first capture into an empty history with durable
writes — the entry lands at the head of history and in both slots. -/
theorem C6_append_persist_verify_witness :
    (captureLocation ⟨false, 0, [], ⟨none, none⟩, none, true⟩ 1
        (.ok ⟨0, 0, 0⟩) "" ⟨true, true⟩).2 = .captured ∧
    (captureLocation ⟨false, 0, [], ⟨none, none⟩, none, true⟩ 1
        (.ok ⟨0, 0, 0⟩) "" ⟨true, true⟩).1.history =
      (mkEntry 1 ⟨0, 0, 0⟩ "" :: ([] : List Entry)).take 50 ∧
    (captureLocation ⟨false, 0, [], ⟨none, none⟩, none, true⟩ 1
        (.ok ⟨0, 0, 0⟩) "" ⟨true, true⟩).1.storage.primarySlot =
      some ((mkEntry 1 ⟨0, 0, 0⟩ "" :: ([] : List Entry)).take 50) ∧
    (captureLocation ⟨false, 0, [], ⟨none, none⟩, none, true⟩ 1
        (.ok ⟨0, 0, 0⟩) "" ⟨true, true⟩).1.storage.backupSlot =
      some ((mkEntry 1 ⟨0, 0, 0⟩ "" :: ([] : List Entry)).take 50) :=
  have h := C6_append_persist_verify
    ⟨false, 0, [], ⟨none, none⟩, none, true⟩ 1 ⟨0, 0, 0⟩ "" ⟨true, true⟩
    rfl (by decide) rfl
  ⟨h.1, h.2.1, h.2.2.2.1 rfl, h.2.2.2.2.1 rfl⟩

/-- Counterexample to claim C1 as stated: in the Android service a point
whose delivery attempt fails with HTTP 500 is neither confirmed delivered
nor placed in any upload queue — postToSheets leaves the service's entire
sync state (just last_upload_time; the service keeps no queue) unchanged
and reports no delivery, so the point is silently dropped from the
delivery pipeline rather than remaining queued. -/
theorem C1_no_loss_counterexample :
    (postToSheets ⟨none⟩ false (.status 500) 1000).2 = false ∧
    (postToSheets ⟨none⟩ false (.status 500) 1000).1 = ⟨none⟩ :=
  ⟨rfl, rfl⟩

/-- Claim C1 as amended: in the queue-based web variant every captured
point is appended to the upload queue before any delivery is attempted,
and handleSync removes entries only when every queued entry's delivery
succeeded — on any failure the whole queue is left unchanged; the Android
service instead posts directly without a queue, and a failed POST leaves
its state unchanged with the point unrecorded for retry. -/
theorem C1_no_loss_amended :
    (∀ (queue history : List QPoint) (p : QPoint),
      p ∈ (trackCapture queue history p).1) ∧
    (∀ (queue : List QPoint) (isOnline dbOk : Bool)
      (deliver : QPoint → Bool),
      handleSync queue isOnline dbOk deliver = queue ∨
        (handleSync queue isOnline dbOk deliver = [] ∧
          queue.all deliver = true)) ∧
    (∀ (prefs : SyncPrefs) (result : PostResult) (now : Nat),
      postSuccess result = false →
      postToSheets prefs false result now = (prefs, false)) := by
  refine ⟨?_, ?_, ?_⟩
  · intro queue history p
    simp [trackCapture]
  · intro queue isOnline dbOk deliver
    unfold handleSync
    split_ifs with h1 h2 h3 h4
    · exact Or.inl rfl
    · exact Or.inl rfl
    · exact Or.inl rfl
    · exact Or.inr ⟨rfl, h4⟩
    · exact Or.inl rfl
  · intro prefs result now h
    simp [postToSheets, h]

/-- Witness for the amended C1 at concrete queue contents. -/
theorem C1_no_loss_witness :
    ((⟨0, 0, 0, "", ""⟩ : QPoint) ∈
      (trackCapture [] [] ⟨0, 0, 0, "", ""⟩).1) ∧
    (handleSync [⟨0, 0, 0, "", ""⟩] false true (fun _ => true) =
        [(⟨0, 0, 0, "", ""⟩ : QPoint)] ∨
      (handleSync [⟨0, 0, 0, "", ""⟩] false true (fun _ => true) = [] ∧
        ([(⟨0, 0, 0, "", ""⟩ : QPoint)]).all (fun _ => true) = true)) ∧
    postToSheets ⟨none⟩ false (.status 404) 7 = (⟨none⟩, false) :=
  ⟨C1_no_loss_amended.1 [] [] ⟨0, 0, 0, "", ""⟩,
    C1_no_loss_amended.2.1 [⟨0, 0, 0, "", ""⟩] false true (fun _ => true),
    C1_no_loss_amended.2.2 ⟨none⟩ (.status 404) 7 rfl⟩

/-- Counterexample to claim C4 as stated: a candidate 5e-6 degrees of
latitude away from a stored entry captured 1 second earlier is within the
claim's epsilon (1e-5 degrees) and time window, so the claim says it is
rejected — but the source's filter, whose epsilon is 1e-6 degrees, accepts
it. -/
theorem C4_dedup_epsilon_counterexample :
    claimIsDuplicate [⟨1000, 0, 0, 0, ""⟩]
        ⟨2000, 5/1000000, 0, 0, ""⟩ = true ∧
    isDuplicate [⟨1000, 0, 0, 0, ""⟩]
        ⟨2000, 5/1000000, 0, 0, ""⟩ = false := by
  constructor
  · simp [claimIsDuplicate]
    rw [abs_of_nonneg (by norm_num)]
    norm_num
  · simp [isDuplicate]
    rw [abs_of_nonneg (by norm_num)]
    norm_num

/-- Claim C4 as amended: the dedup filter rejects a candidate iff some
stored entry has the same id, or lies within 1e-6 degrees (not 1e-5) on
both coordinates and within 30000 ms of the candidate (ids being capture
times in milliseconds). -/
theorem C4_dedup_epsilon_amended :
    ∀ (prev : List Entry) (e : Entry),
      isDuplicate prev e = true ↔
        ∃ item ∈ prev, item.id = e.id ∨
          (|item.latitude - e.latitude| < 1/1000000 ∧
           |item.longitude - e.longitude| < 1/1000000 ∧
           ((item.id : Int) - (e.id : Int)).natAbs < 30000) := by
  intro prev e
  simp only [isDuplicate, List.any_eq_true, Bool.or_eq_true,
    Bool.and_eq_true, decide_eq_true_eq, beq_iff_eq, and_assoc]

/-- Witness for the amended C4: an identical id is rejected. -/
theorem C4_dedup_epsilon_witness :
    isDuplicate [⟨1000, 0, 0, 0, ""⟩] ⟨1000, 1, 1, 0, ""⟩ = true :=
  (C4_dedup_epsilon_amended [⟨1000, 0, 0, 0, ""⟩]
      ⟨1000, 1, 1, 0, ""⟩).mpr
    ⟨⟨1000, 0, 0, 0, ""⟩, by simp, Or.inl rfl⟩

/-- Counterexample to claim C5 as stated: with a corrupt primary slot and
a valid backup slot holding one entry, loadHistory returns the empty log —
the JSON.parse exception lands in the catch block before the backup is
consulted — not the backup's contents as the claim requires. -/
theorem C5_load_fallback_counterexample :
    loadHistory Slot.corrupt (Slot.valid [⟨1, 0, 0, 0, ""⟩]) = [] ∧
    loadHistory Slot.corrupt (Slot.valid [⟨1, 0, 0, 0, ""⟩]) ≠
      [⟨1, 0, 0, 0, ""⟩] := by
  refine ⟨rfl, ?_⟩
  intro h
  rw [show loadHistory Slot.corrupt (Slot.valid [⟨1, 0, 0, 0, ""⟩]) =
    [] from rfl] at h
  simp at h

/-- Claim C5 as amended: load returns the primary slot's contents when the
primary is present (truthy) and parseable; when the primary is absent or
empty it returns the backup's contents under the same conditions; but when
the consulted slot is corrupt the parse exception yields the empty log
(the backup is never used to recover from a corrupt primary); with both
slots absent the empty log is returned. -/
theorem C5_load_fallback_amended :
    ∀ p b : Slot,
      loadHistory p b =
        match p, b with
        | .valid d, _ => d
        | .corrupt, _ => []
        | _, .valid d => d
        | _, _ => [] := by
  intro p b
  cases p <;> cases b <;> rfl

/-- Claim C7: a delivery attempt (with a configured URL) is successful iff
the HTTP response code is 200 or 302 — an exception (network error or
timeout) is never a success — and exactly the successful attempts set
last_upload_time to the current time, a failed attempt leaving the prefs
untouched. -/
theorem C7_delivery_success :
    (∀ code : Int,
      postSuccess (.status code) = true ↔ code = 200 ∨ code = 302) ∧
    postSuccess .netError = false ∧
    (∀ (prefs : SyncPrefs) (result : PostResult) (now : Nat),
      (postToSheets prefs false result now).2 = postSuccess result ∧
      (postSuccess result = true →
        (postToSheets prefs false result now).1.lastUploadTime =
          some now) ∧
      (postSuccess result = false →
        (postToSheets prefs false result now).1 = prefs)) := by
  refine ⟨?_, rfl, ?_⟩
  · intro code
    simp [postSuccess, Bool.or_eq_true, beq_iff_eq]
  · intro prefs result now
    refine ⟨?_, ?_, ?_⟩
    · cases h : postSuccess result <;> simp [postToSheets, h]
    · intro h
      simp [postToSheets, h]
    · intro h
      simp [postToSheets, h]

/-- Witness for C7: a 302 response is a success and stamps the upload
time; a network error leaves the prefs unchanged. -/
theorem C7_delivery_success_witness :
    postSuccess (.status 302) = true ∧
    (postToSheets ⟨none⟩ false (.status 302) 42).1.lastUploadTime =
      some 42 ∧
    (postToSheets ⟨some 9⟩ false .netError 42).1 = ⟨some 9⟩ :=
  ⟨(C7_delivery_success.1 302).mpr (Or.inr rfl),
    (C7_delivery_success.2.2 ⟨none⟩ (.status 302) 42).2.1 rfl,
    (C7_delivery_success.2.2 ⟨some 9⟩ .netError 42).2.2 rfl⟩

/-- Counterexample to claim C8 as stated: when no upload has ever
succeeded, the stored last-upload time defaults to the current tick time —
not the process start time — so 8 hours after a start with no successful
upload the claim demands an alert while the code computes 0 elapsed hours
and stays silent. -/
theorem C8_watchdog_counterexample :
    watchdogTick none (8 * msPerHour) = false ∧
    watchdogTickSpec none 0 (8 * msPerHour) = true :=
  ⟨rfl, rfl⟩

/-- Claim C8 as amended: a tick raises the staleness alert iff a
last-upload time t is actually stored and now − t is at least 7 hours
(integer-hour comparison, so exactly 7 elapsed hours already alerts);
before the first successful upload the stored value defaults to the tick's
own current time, so no alert is ever raised. -/
theorem C8_watchdog_amended :
    ∀ (stored : Option Nat) (now : Nat),
      (watchdogTick stored now = true ↔
        ∃ t, stored = some t ∧ 7 * msPerHour ≤ now - t) ∧
      watchdogTick none now = false := by
  intro stored now
  have hpos : 0 < msPerHour := by norm_num [msPerHour]
  constructor
  · cases stored with
    | none => simp [watchdogTick]
    | some t =>
      simp [watchdogTick, Nat.le_div_iff_mul_le hpos]
  · simp [watchdogTick]

/-- Witness for the amended C8: exactly 7 hours after a stored upload the
alert fires; with nothing stored it never fires. -/
theorem C8_watchdog_witness :
    watchdogTick (some 0) (7 * msPerHour) = true ∧
    watchdogTick none 987654 = false :=
  ⟨(C8_watchdog_amended (some 0) (7 * msPerHour)).1.mpr
      ⟨0, rfl, by decide⟩,
    (C8_watchdog_amended none 987654).2⟩

/-- Claim C9: on process start the scheduler is started iff the persisted
was_tracking flag is the string "true"; with the flag "true" the timer is
started with the persisted cadence; stopping persists "false" and starts
no timer, and a restart after a stop again starts no timer — a
user-initiated stop is durable. -/
theorem C9_resume_scheduler :
    ∀ (stored : Option String) (intv : Option Nat),
      ((trackingEffect (resumeWasTracking stored) intv).1 ≠ none ↔
        stored = some "true") ∧
      (trackingEffect (resumeWasTracking (some "true")) intv).1 =
        some ((intv.getD 5) * 60 * 1000) ∧
      trackingEffect false intv = (none, "false") ∧
      (∀ intv2 : Option Nat,
        (trackingEffect (resumeWasTracking
          (some (trackingEffect false intv).2)) intv2).1 = none) := by
  intro stored intv
  refine ⟨?_, ?_, rfl, ?_⟩
  · cases stored with
    | none => simp [resumeWasTracking, trackingEffect]
    | some sVal =>
      by_cases hs : sVal = "true"
      · subst hs
        simp [resumeWasTracking, trackingEffect]
      · simp [resumeWasTracking, trackingEffect, hs]
  · simp [resumeWasTracking, trackingEffect]
  · intro intv2
    simp [resumeWasTracking, trackingEffect]

/-- Witness for C9 at a concrete persisted flag and cadence. -/
theorem C9_resume_scheduler_witness :
    (trackingEffect (resumeWasTracking (some "true")) (some 2)).1 =
      some (((some 2 : Option Nat).getD 5) * 60 * 1000) ∧
    trackingEffect false (some 2) = (none, "false") :=
  ⟨(C9_resume_scheduler (some "true") (some 2)).2.1,
    (C9_resume_scheduler (some "true") (some 2)).2.2.1⟩

end LocationTracker
